import Mathlib

/-
  Shallow embedding of the data-access layer of the "Financeiro Inteligente"
  financial tracking backend (src/database.py).

  Modelling conventions:
  - datetime instants (and TEXT timestamp columns) are `Int` values counting
    seconds; `datetime.fromisoformat` / `isoformat` are the identity under this
    view, `timedelta(days=7)` is `7 * 86400`, and `datetime.utcnow()` is an
    explicit `now : Int` parameter;
  - SQL REAL amounts are `Rat`;
  - nullable columns and optional constructor arguments are `Option` values;
  - Python truthiness tests (`if x:`, `x or d`, `f(x) if x else d`) are made
    explicit by the `truthy*` helpers below;
  - each SQLite table is a list of rows plus the AUTOINCREMENT counter
    (`next_id`); `cursor.lastrowid` after an INSERT is the id assigned to the
    appended row;
  - columns that an INSERT omits take their schema default: `created_at`
    (DEFAULT CURRENT_TIMESTAMP) is filled with the `now` instant passed to the
    operation.
-/

namespace FinSys

/-- Python truthiness of an optional string: `None` and `''` are falsy. -/
def truthyStr : Option String → Bool
  | none => false
  | some s => s ≠ ""

/-- Python truthiness of an optional integer id: `None` and `0` are falsy. -/
def truthyNat : Option Nat → Bool
  | none => false
  | some n => n ≠ 0

/-- Python truthiness of an optional integer: `None` and `0` are falsy. -/
def truthyInt : Option Int → Bool
  | none => false
  | some n => n ≠ 0

/-- Python truthiness of an optional rational: `None` and `0.0` are falsy. -/
def truthyRat : Option Rat → Bool
  | none => false
  | some q => q ≠ 0

/-- The coercion `float(x) if x else 0.0` applied to a nullable REAL column. -/
def floatOrZero (x : Option Rat) : Rat :=
  if truthyRat x then x.getD 0 else 0

/-- The coercion `bool(x) if x else False` applied to a nullable boolean-as-integer column. -/
def boolOrFalse (x : Option Int) : Bool :=
  truthyInt x

/-- The Python idiom `x or d` on a nullable string column. -/
def strOr (x : Option String) (d : String) : String :=
  if truthyStr x then x.getD "" else d

theorem floatOrZero_some (q : Rat) : floatOrZero (some q) = q := by
  by_cases h : q = 0 <;> simp [floatOrZero, truthyRat, h]

theorem boolOrFalse_some_of_bool (b : Bool) :
    boolOrFalse (some (if b then (1 : Int) else 0)) = b := by
  cases b <;> simp [boolOrFalse, truthyInt]

theorem strOr_some_strOr (x : Option String) (d : String) (hd : d ≠ "") :
    strOr (some (strOr x d)) d = strOr x d := by
  by_cases h : truthyStr x
  · cases x with
    | none => simp [truthyStr] at h
    | some s =>
      simp [truthyStr] at h
      simp [strOr, truthyStr, h]
  · simp only [strOr, h, if_false, Bool.false_eq_true]
    simp [truthyStr, hd]

/-! ## User -/

/-- In-memory `User` object, as produced by `User.__init__`. -/
structure User where
  id : Option Nat
  username : Option String
  email : Option String
  password_hash : Option String
  full_name : Option String
  phone : Option String
  created_at : Option Int
  active : Bool
  trial_start_date : Option Int
  trial_end_date : Option Int
  subscription_plan : String
  subscription_status : String
  subscription_end_date : Option Int
  deriving Repr, DecidableEq

/-- `User.__init__`: typed coercions on construction. `active` defaults to
True only when the argument is `None` (an explicit 0 stays falsy); the plan and
status strings default to `'trial'` via `x or 'trial'`. -/
def User.init (id : Option Nat) (username email password_hash full_name phone : Option String)
    (created_at : Option Int) (active : Option Int)
    (trial_start_date trial_end_date : Option Int)
    (subscription_plan subscription_status : Option String)
    (subscription_end_date : Option Int) : User :=
  { id := id, username := username, email := email, password_hash := password_hash,
    full_name := full_name, phone := phone, created_at := created_at,
    active := match active with
      | none => true
      | some a => decide (a ≠ 0),
    trial_start_date := trial_start_date, trial_end_date := trial_end_date,
    subscription_plan := strOr subscription_plan "trial",
    subscription_status := strOr subscription_status "trial",
    subscription_end_date := subscription_end_date }

/-- `User.is_trial_expired`: false when no trial end date is stored, else
true exactly when the current instant is strictly after it. -/
def User.is_trial_expired (u : User) (now : Int) : Bool :=
  match u.trial_end_date with
  | none => false
  | some t => decide (t < now)

/-- `User.is_subscription_active`: for status `'trial'`, the negation of trial
expiry; otherwise status must be `'active'`, the subscription end date must be
set, and the current instant must be at or before it. -/
def User.is_subscription_active (u : User) (now : Int) : Bool :=
  if u.subscription_status = "trial" then
    ! u.is_trial_expired now
  else
    decide (u.subscription_status = "active") &&
      (match u.subscription_end_date with
        | none => false
        | some t => decide (now ≤ t))

/-- One entry of the static plan-feature table. -/
structure PlanFeatures where
  name : String
  transactions_limit : Int
  reports : Bool
  automation : Bool
  multi_user : Bool
  deriving Repr, DecidableEq

def trialFeatures : PlanFeatures :=
  { name := "Teste Grátis", transactions_limit := 10,
    reports := false, automation := false, multi_user := false }

def meiFeatures : PlanFeatures :=
  { name := "Plano MEI", transactions_limit := 100,
    reports := true, automation := false, multi_user := false }

def professionalFeatures : PlanFeatures :=
  { name := "Plano Profissional", transactions_limit := 500,
    reports := true, automation := true, multi_user := false }

def enterpriseFeatures : PlanFeatures :=
  { name := "Plano Empresarial", transactions_limit := -1,
    reports := true, automation := true, multi_user := true }

/-- `User.get_plan_features`: `features.get(self.subscription_plan, features['trial'])`. -/
def User.get_plan_features (u : User) : PlanFeatures :=
  if u.subscription_plan = "trial" then trialFeatures
  else if u.subscription_plan = "mei" then meiFeatures
  else if u.subscription_plan = "professional" then professionalFeatures
  else if u.subscription_plan = "enterprise" then enterpriseFeatures
  else trialFeatures

/-- A stored row of the `users` table. -/
structure UserRow where
  id : Nat
  username : Option String
  email : Option String
  password_hash : Option String
  full_name : Option String
  phone : Option String
  created_at : Option Int
  active : Option Int
  trial_start_date : Option Int
  trial_end_date : Option Int
  subscription_plan : Option String
  subscription_status : Option String
  subscription_end_date : Option Int
  deriving Repr, DecidableEq

/-- The `users` table: stored rows plus the AUTOINCREMENT counter. -/
structure UsersTable where
  rows : List UserRow
  next_id : Nat
  deriving Repr, DecidableEq

/-- `User(**dict(row))`: materialize a stored row through `User.__init__`. -/
def UserRow.toUser (r : UserRow) : User :=
  User.init (some r.id) r.username r.email r.password_hash r.full_name r.phone
    r.created_at r.active r.trial_start_date r.trial_end_date
    r.subscription_plan r.subscription_status r.subscription_end_date

/-- `User.get_by_id`: `SELECT * FROM users WHERE id = ?`, `None` on a miss. -/
def User.get_by_id (user_id : Nat) (tbl : UsersTable) : Option User :=
  (tbl.rows.find? (fun r => r.id == user_id)).map UserRow.toUser

/-- `User.get_by_email`: `SELECT * FROM users WHERE email = ?`, `None` on a miss.
A NULL stored email matches no lookup key. -/
def User.get_by_email (email : String) (tbl : UsersTable) : Option User :=
  (tbl.rows.find? (fun r => r.email == some email)).map UserRow.toUser

/-- `User.get_by_username`: `SELECT * FROM users WHERE username = ?`, `None` on a miss. -/
def User.get_by_username (username : String) (tbl : UsersTable) : Option User :=
  (tbl.rows.find? (fun r => r.username == some username)).map UserRow.toUser

/-- `User.create`: hash the password, INSERT with `trial_end_date` seven days
from now, and return `User.get_by_id(lastrowid)`. Columns the INSERT omits take
their schema defaults (`active = 1`, `trial_start_date`/`created_at` =
CURRENT_TIMESTAMP, plan and status `'trial'`, no subscription end date).
A UNIQUE-constraint violation on username or email surfaces as a store-level
error (`Except.error`), leaving the table unchanged. `gen_hash` stands for
`werkzeug.security.generate_password_hash`. `User.createRow` is the row the
INSERT stores, schema defaults included. -/
def User.createRow (gen_hash : String → String)
    (username email password full_name : String) (phone : Option String)
    (now : Int) (new_id : Nat) : UserRow :=
  { id := new_id, username := some username, email := some email,
    password_hash := some (gen_hash password), full_name := some full_name,
    phone := phone, created_at := some now, active := some 1,
    trial_start_date := some now, trial_end_date := some (now + 7 * 86400),
    subscription_plan := some "trial", subscription_status := some "trial",
    subscription_end_date := none }

def User.create (gen_hash : String → String)
    (username email password full_name : String) (phone : Option String)
    (now : Int) (tbl : UsersTable) :
    Except String (Option User × UsersTable) :=
  if tbl.rows.any (fun r => r.username == some username || r.email == some email) then
    Except.error "UNIQUE constraint failed"
  else
    Except.ok
      (User.get_by_id tbl.next_id
        ⟨tbl.rows ++ [User.createRow gen_hash username email password full_name
            phone now tbl.next_id], tbl.next_id + 1⟩,
       ⟨tbl.rows ++ [User.createRow gen_hash username email password full_name
            phone now tbl.next_id], tbl.next_id + 1⟩)

/-! ## Transaction -/

/-- Calendar date carried by the TEXT `date` column of a transaction, as far as
the `strftime('%m', ...)` / `strftime('%Y', ...)` aggregation filters observe it. -/
structure PyDate where
  year : Int
  month : Nat
  day : Nat
  deriving Repr, DecidableEq

/-- In-memory `Transaction` object, as produced by `Transaction.__init__`. -/
structure Transaction where
  id : Option Nat
  user_id : Option Int
  description : Option String
  amount : Rat
  transaction_type : Option String
  category : Option String
  date : Option PyDate
  created_at : Option Int
  is_recurring : Bool
  recurrence_type : Option String
  account_id : Option Int
  deriving Repr, DecidableEq

/-- `Transaction.__init__`: `amount` is `float(amount) if amount else 0.0`,
`is_recurring` is `bool(is_recurring) if is_recurring else False`. -/
def Transaction.init (id : Option Nat) (user_id : Option Int)
    (description : Option String) (amount : Option Rat)
    (transaction_type category : Option String) (date : Option PyDate)
    (created_at : Option Int) (is_recurring : Option Int)
    (recurrence_type : Option String) (account_id : Option Int) : Transaction :=
  { id := id, user_id := user_id, description := description,
    amount := floatOrZero amount,
    transaction_type := transaction_type, category := category,
    date := date, created_at := created_at,
    is_recurring := boolOrFalse is_recurring,
    recurrence_type := recurrence_type, account_id := account_id }

/-- A stored row of the `transactions` table. -/
structure TransactionRow where
  id : Nat
  user_id : Option Int
  description : Option String
  amount : Option Rat
  transaction_type : Option String
  category : Option String
  date : Option PyDate
  created_at : Option Int
  is_recurring : Option Int
  recurrence_type : Option String
  account_id : Option Int
  deriving Repr, DecidableEq

/-- The `transactions` table. -/
structure TransactionsTable where
  rows : List TransactionRow
  next_id : Nat
  deriving Repr, DecidableEq

/-- `Transaction(**dict(row))`. -/
def TransactionRow.toTransaction (r : TransactionRow) : Transaction :=
  Transaction.init (some r.id) r.user_id r.description r.amount
    r.transaction_type r.category r.date r.created_at r.is_recurring
    r.recurrence_type r.account_id

/-- `Transaction.save`: UPDATE of all mutable columns when `self.id` is truthy,
else INSERT (with `created_at` taken from the schema default) followed by
`self.id = cursor.lastrowid`; returns `self`. -/
def Transaction.save (t : Transaction) (tbl : TransactionsTable) (now : Int) :
    Transaction × TransactionsTable :=
  if truthyNat t.id then
    let i := t.id.getD 0
    (t, ⟨tbl.rows.map (fun r =>
        if r.id = i then
          { r with
            description := t.description, amount := some t.amount,
            transaction_type := t.transaction_type, category := t.category,
            date := t.date,
            is_recurring := some (if t.is_recurring then 1 else 0),
            recurrence_type := t.recurrence_type, account_id := t.account_id }
        else r),
      tbl.next_id⟩)
  else
    let i := tbl.next_id
    let row : TransactionRow :=
      { id := i, user_id := t.user_id, description := t.description,
        amount := some t.amount, transaction_type := t.transaction_type,
        category := t.category, date := t.date, created_at := some now,
        is_recurring := some (if t.is_recurring then 1 else 0),
        recurrence_type := t.recurrence_type, account_id := t.account_id }
    ({ t with id := some i }, ⟨tbl.rows ++ [row], i + 1⟩)

/-- The WHERE clause of one aggregate of `Transaction.get_monthly_summary`:
owner, transaction type, and the month and year parts of the date must match.
A NULL date matches no month/year filter. -/
def monthlyMatch (user_id : Int) (ttype : String) (month : Nat) (year : Int)
    (r : TransactionRow) : Bool :=
  r.user_id == some user_id && r.transaction_type == some ttype &&
    (match r.date with
      | none => false
      | some d => d.month == month && d.year == year)

/-- `SELECT COALESCE(SUM(amount), 0)` over the rows a filter keeps: a fold
accumulating the amounts of matching rows, starting from 0. -/
def sqlSum {α : Type} (p : α → Bool) (f : α → Rat) (rows : List α) : Rat :=
  rows.foldl (fun acc r => if p r then acc + f r else acc) 0

/-- `Transaction.get_monthly_summary`: the pair of COALESCE'd SUM aggregates
over income and expense rows of the user in the given month and year. -/
def Transaction.get_monthly_summary (user_id : Int) (month : Nat) (year : Int)
    (tbl : TransactionsTable) : Rat × Rat :=
  (sqlSum (monthlyMatch user_id "income" month year) (fun r => r.amount.getD 0) tbl.rows,
   sqlSum (monthlyMatch user_id "expense" month year) (fun r => r.amount.getD 0) tbl.rows)

/-! ## Account (payable/receivable ledger entry) -/

/-- In-memory `Account` object, as produced by `Account.__init__`. -/
structure Account where
  id : Option Nat
  user_id : Option Int
  name : Option String
  account_type : Option String
  amount : Rat
  due_date : Option String
  status : String
  created_at : Option Int
  deriving Repr, DecidableEq

/-- `Account.__init__`: `amount` is `float(amount) if amount else 0.0`,
`status` is `status or 'pending'`. -/
def Account.init (id : Option Nat) (user_id : Option Int)
    (name account_type : Option String) (amount : Option Rat)
    (due_date status : Option String) (created_at : Option Int) : Account :=
  { id := id, user_id := user_id, name := name, account_type := account_type,
    amount := floatOrZero amount, due_date := due_date,
    status := strOr status "pending", created_at := created_at }

/-- A stored row of the `accounts` table. -/
structure AccountRow where
  id : Nat
  user_id : Option Int
  name : Option String
  account_type : Option String
  amount : Option Rat
  due_date : Option String
  status : Option String
  created_at : Option Int
  deriving Repr, DecidableEq

/-- The `accounts` table. -/
structure AccountsTable where
  rows : List AccountRow
  next_id : Nat
  deriving Repr, DecidableEq

/-- `Account(**dict(row))`. -/
def AccountRow.toAccount (r : AccountRow) : Account :=
  Account.init (some r.id) r.user_id r.name r.account_type r.amount
    r.due_date r.status r.created_at

/-- `Account.save`: UPDATE of all mutable columns when `self.id` is truthy,
else INSERT (with `created_at` from the schema default) followed by
`self.id = cursor.lastrowid`; returns `self`. -/
def Account.save (a : Account) (tbl : AccountsTable) (now : Int) :
    Account × AccountsTable :=
  if truthyNat a.id then
    let i := a.id.getD 0
    (a, ⟨tbl.rows.map (fun r =>
        if r.id = i then
          { r with
            name := a.name, account_type := a.account_type,
            amount := some a.amount, due_date := a.due_date,
            status := some a.status }
        else r),
      tbl.next_id⟩)
  else
    let i := tbl.next_id
    let row : AccountRow :=
      { id := i, user_id := a.user_id, name := a.name,
        account_type := a.account_type, amount := some a.amount,
        due_date := a.due_date, status := some a.status,
        created_at := some now }
    ({ a with id := some i }, ⟨tbl.rows ++ [row], i + 1⟩)

/-- `Account.get_by_id`: `SELECT * FROM accounts WHERE id = ?`, narrowed to
`AND user_id = ?` when a truthy `user_id` is passed; `None` on a miss. -/
def Account.get_by_id (account_id : Nat) (user_id : Option Int)
    (tbl : AccountsTable) : Option Account :=
  if truthyInt user_id then
    (tbl.rows.find? (fun r => r.id == account_id && r.user_id == user_id)).map
      AccountRow.toAccount
  else
    (tbl.rows.find? (fun r => r.id == account_id)).map AccountRow.toAccount

/-- The WHERE clause of `Account.get_pending_total`: owner and account type
match and the stored status is exactly `'pending'`. -/
def pendingMatch (user_id : Int) (account_type : String) (r : AccountRow) : Bool :=
  r.user_id == some user_id && r.account_type == some account_type &&
    r.status == some "pending"

/-- `Account.get_pending_total`: `SELECT COALESCE(SUM(amount), 0)` over the
user's accounts of the given type whose status is `'pending'`. -/
def Account.get_pending_total (user_id : Int) (account_type : String)
    (tbl : AccountsTable) : Rat :=
  sqlSum (pendingMatch user_id account_type) (fun r => r.amount.getD 0) tbl.rows

/-! ## FinancialGoal -/

/-- In-memory `FinancialGoal` object, as produced by `FinancialGoal.__init__`. -/
structure FinancialGoal where
  id : Option Nat
  user_id : Option Int
  title : Option String
  target_amount : Rat
  current_amount : Rat
  target_date : Option String
  created_at : Option Int
  is_completed : Bool
  deriving Repr, DecidableEq

/-- `FinancialGoal.__init__`: both amounts are `float(x) if x else 0.0`,
`is_completed` is `bool(x) if x else False`. -/
def FinancialGoal.init (id : Option Nat) (user_id : Option Int)
    (title : Option String) (target_amount current_amount : Option Rat)
    (target_date : Option String) (created_at : Option Int)
    (is_completed : Option Int) : FinancialGoal :=
  { id := id, user_id := user_id, title := title,
    target_amount := floatOrZero target_amount,
    current_amount := floatOrZero current_amount,
    target_date := target_date, created_at := created_at,
    is_completed := boolOrFalse is_completed }

/-- `FinancialGoal.get_progress_percentage`: 0 when the target is 0, else
`min(100, current / target * 100)`. -/
def FinancialGoal.get_progress_percentage (g : FinancialGoal) : Rat :=
  if g.target_amount = 0 then 0
  else min 100 (g.current_amount / g.target_amount * 100)

/-- A stored row of the `financial_goals` table. -/
structure GoalRow where
  id : Nat
  user_id : Option Int
  title : Option String
  target_amount : Option Rat
  current_amount : Option Rat
  target_date : Option String
  created_at : Option Int
  is_completed : Option Int
  deriving Repr, DecidableEq

/-- The `financial_goals` table. -/
structure GoalsTable where
  rows : List GoalRow
  next_id : Nat
  deriving Repr, DecidableEq

/-- `FinancialGoal(**dict(row))`. -/
def GoalRow.toFinancialGoal (r : GoalRow) : FinancialGoal :=
  FinancialGoal.init (some r.id) r.user_id r.title r.target_amount
    r.current_amount r.target_date r.created_at r.is_completed

/-- `FinancialGoal.save`: UPDATE of all mutable columns when `self.id` is
truthy, else INSERT (with `created_at` from the schema default) followed by
`self.id = cursor.lastrowid`; returns `self`. -/
def FinancialGoal.save (g : FinancialGoal) (tbl : GoalsTable) (now : Int) :
    FinancialGoal × GoalsTable :=
  if truthyNat g.id then
    let i := g.id.getD 0
    (g, ⟨tbl.rows.map (fun r =>
        if r.id = i then
          { r with
            title := g.title, target_amount := some g.target_amount,
            current_amount := some g.current_amount,
            target_date := g.target_date,
            is_completed := some (if g.is_completed then 1 else 0) }
        else r),
      tbl.next_id⟩)
  else
    let i := tbl.next_id
    let row : GoalRow :=
      { id := i, user_id := g.user_id, title := g.title,
        target_amount := some g.target_amount,
        current_amount := some g.current_amount,
        target_date := g.target_date, created_at := some now,
        is_completed := some (if g.is_completed then 1 else 0) }
    ({ g with id := some i }, ⟨tbl.rows ++ [row], i + 1⟩)

/-! ## Sample records used by witnesses -/

/-- A trial-status user whose trial ends at instant 100. -/
def sampleTrialUser : User :=
  User.init (some 1) (some "joao") (some "joao@mail.com") (some "hash")
    (some "João Silva") none (some 0) (some 1) (some 0) (some 100)
    (some "trial") (some "trial") none

/-- An active-status user whose subscription ends at instant 200. -/
def sampleActiveUser : User :=
  User.init (some 2) (some "maria") (some "maria@mail.com") (some "hash")
    (some "Maria Souza") none (some 0) (some 1) (some 0) (some 100)
    (some "mei") (some "active") (some 200)

/-- A trial-status user with no stored trial end date. -/
def sampleNoTrialEndUser : User :=
  User.init (some 3) (some "ana") (some "ana@mail.com") (some "hash")
    (some "Ana Lima") none (some 0) (some 1) (some 0) none
    (some "trial") (some "trial") none

/-- A user whose subscription plan is not a key of the feature table. -/
def sampleUnknownPlanUser : User :=
  User.init (some 4) (some "rui") (some "rui@mail.com") (some "hash")
    (some "Rui Costa") none (some 0) (some 1) (some 0) (some 100)
    (some "gold") (some "active") (some 200)

/-- A goal with target 200 and current 50. -/
def sampleGoal : FinancialGoal :=
  FinancialGoal.init (some 1) (some 1) (some "Reserva") (some 200) (some 50)
    none none none

/-! ## C1: subscription-active check -/

/-- C1: for a user with status `'trial'`, `is_subscription_active` is true iff
the trial is not expired, where `is_trial_expired` is true exactly when the
current instant is strictly after the stored trial end; at exactly the expiry
instant the trial is not expired and the subscription is still active. For any
other status, `is_subscription_active` is true iff the status is `'active'`,
a subscription end date is set, and the current instant is at or before it.
The check is a pure function of `now` and the stored fields. -/
theorem subscription_active_spec (u : User) (now : Int) :
    (u.subscription_status = "trial" →
      ((u.is_subscription_active now = true ↔ u.is_trial_expired now = false) ∧
       (u.is_trial_expired now = true ↔
         ∃ t, u.trial_end_date = some t ∧ t < now) ∧
       (u.trial_end_date = some now →
         u.is_trial_expired now = false ∧ u.is_subscription_active now = true))) ∧
    (u.subscription_status ≠ "trial" →
      (u.is_subscription_active now = true ↔
        u.subscription_status = "active" ∧
          ∃ t, u.subscription_end_date = some t ∧ now ≤ t)) := by
  constructor
  · intro h
    refine ⟨?_, ?_, ?_⟩
    · simp only [User.is_subscription_active, h, if_pos]
      cases u.is_trial_expired now <;> simp
    · unfold User.is_trial_expired
      cases htr : u.trial_end_date with
      | none => simp
      | some t => simp
    · intro he
      have hexp : u.is_trial_expired now = false := by
        unfold User.is_trial_expired
        simp [he]
      refine ⟨hexp, ?_⟩
      simp [User.is_subscription_active, h, hexp]
  · intro h
    simp only [User.is_subscription_active, if_neg h]
    cases hse : u.subscription_end_date with
    | none => simp
    | some t => simp

/-- C1 witness: at the exact expiry instant 100 the sample trial user is not
expired and still active; the sample active user is active at instant 150. -/
theorem subscription_active_spec_witness :
    (sampleTrialUser.is_trial_expired 100 = false ∧
      sampleTrialUser.is_subscription_active 100 = true) ∧
    sampleActiveUser.is_subscription_active 150 = true :=
  ⟨((subscription_active_spec sampleTrialUser 100).1 (by decide)).2.2 (by decide),
   ((subscription_active_spec sampleActiveUser 150).2 (by decide)).mpr
     ⟨by decide, 200, by decide, by decide⟩⟩

/-! ## C2: goal progress percentage -/

/-- C2: `get_progress_percentage` returns 0 when the target amount is 0 (no
division is attempted), otherwise `min 100 (current / target * 100)`; in all
cases the result never exceeds 100. -/
theorem progress_percentage_spec (g : FinancialGoal) :
    (g.target_amount = 0 → g.get_progress_percentage = 0) ∧
    (g.target_amount ≠ 0 →
      g.get_progress_percentage =
        min 100 (g.current_amount / g.target_amount * 100)) ∧
    g.get_progress_percentage ≤ 100 := by
  refine ⟨fun h => by simp [FinancialGoal.get_progress_percentage, h],
          fun h => by simp [FinancialGoal.get_progress_percentage, h], ?_⟩
  unfold FinancialGoal.get_progress_percentage
  split
  · norm_num
  · exact min_le_left _ _

/-- C2 witness: the sample goal (50 of 200) has nonzero target and progress
`min 100 25 = 25`. -/
theorem progress_percentage_spec_witness :
    sampleGoal.target_amount ≠ 0 ∧
      sampleGoal.get_progress_percentage =
        min 100 (sampleGoal.current_amount / sampleGoal.target_amount * 100) :=
  ⟨by decide, (progress_percentage_spec sampleGoal).2.1 (by decide)⟩

/-! ## C3: plan-feature lookup -/

/-- C3: `get_plan_features` maps each of the four known plan names to its
feature record and every other plan name to the trial feature record. -/
theorem plan_features_spec (u : User) :
    (u.subscription_plan = "trial" → u.get_plan_features = trialFeatures) ∧
    (u.subscription_plan = "mei" → u.get_plan_features = meiFeatures) ∧
    (u.subscription_plan = "professional" →
      u.get_plan_features = professionalFeatures) ∧
    (u.subscription_plan = "enterprise" →
      u.get_plan_features = enterpriseFeatures) ∧
    (u.subscription_plan ≠ "trial" → u.subscription_plan ≠ "mei" →
      u.subscription_plan ≠ "professional" → u.subscription_plan ≠ "enterprise" →
      u.get_plan_features = trialFeatures) := by
  unfold User.get_plan_features
  refine ⟨fun h => by simp [h], fun h => by simp [h], fun h => by simp [h],
          fun h => by simp [h], fun h1 h2 h3 h4 => by simp [h1, h2, h3, h4]⟩

/-- C3 witness: the known plan `'mei'` maps to its record and the unknown plan
`'gold'` falls back to the trial record. -/
theorem plan_features_spec_witness :
    sampleActiveUser.get_plan_features = meiFeatures ∧
      sampleUnknownPlanUser.get_plan_features = trialFeatures :=
  ⟨(plan_features_spec sampleActiveUser).2.1 (by decide),
   (plan_features_spec sampleUnknownPlanUser).2.2.2.2
     (by decide) (by decide) (by decide) (by decide)⟩

/-! ## C10: absent trial end date -/

/-- C10: a user with no stored trial end date is never trial-expired, at any
current instant; hence such a user with status `'trial'` is reported
subscription-active forever. -/
theorem absent_trial_end_spec (u : User) (now : Int)
    (h : u.trial_end_date = none) :
    u.is_trial_expired now = false ∧
      (u.subscription_status = "trial" → u.is_subscription_active now = true) := by
  have hexp : u.is_trial_expired now = false := by
    unfold User.is_trial_expired
    simp [h]
  exact ⟨hexp, fun hs => by simp [User.is_subscription_active, hs, hexp]⟩

/-- C10 witness: the sample user with no trial end date is not expired and is
active even at the very large instant 1000000000. -/
theorem absent_trial_end_spec_witness :
    sampleNoTrialEndUser.is_trial_expired 1000000000 = false ∧
      sampleNoTrialEndUser.is_subscription_active 1000000000 = true :=
  ⟨(absent_trial_end_spec sampleNoTrialEndUser 1000000000 (by decide)).1,
   (absent_trial_end_spec sampleNoTrialEndUser 1000000000 (by decide)).2 (by decide)⟩

/-! ## SUM-aggregate characterization -/

/-- Folding a guarded accumulation from an arbitrary start equals the start
plus the sum of the selected values. -/
theorem foldl_guarded_add {α : Type} (p : α → Bool) (f : α → Rat)
    (l : List α) (start : Rat) :
    l.foldl (fun acc r => if p r then acc + f r else acc) start
      = start + ((l.filter p).map f).sum := by
  induction l generalizing start with
  | nil => simp
  | cons x xs ih =>
    simp only [List.foldl_cons, List.filter_cons]
    by_cases h : p x
    · rw [if_pos h, if_pos h, ih (start + f x)]
      simp [add_assoc]
    · rw [if_neg h, if_neg h, ih start]

/-- The SQL `COALESCE(SUM(...), 0)` aggregate equals the sum of the selected
values, and is 0 when nothing is selected. -/
theorem sqlSum_eq_filter_sum {α : Type} (p : α → Bool) (f : α → Rat)
    (l : List α) :
    sqlSum p f l = ((l.filter p).map f).sum := by
  unfold sqlSum
  rw [foldl_guarded_add, zero_add]

/-! ## C6: monthly income/expense summary -/

/-- C6: `get_monthly_summary` returns the pair whose first component is the sum
of amounts over exactly the stored transactions of the given user with type
`'income'` whose date has the given month and year, and whose second component
is the same sum over type `'expense'`; each component is 0 when no row
matches its filter (so rows of other users, other types, or other month/year
contribute nothing). -/
theorem monthly_summary_spec (uid : Int) (month : Nat) (year : Int)
    (tbl : TransactionsTable) :
    ((Transaction.get_monthly_summary uid month year tbl).1
      = ((tbl.rows.filter (fun r =>
            r.user_id == some uid && r.transaction_type == some "income" &&
              (match r.date with
                | none => false
                | some d => d.month == month && d.year == year))).map
          (fun r => r.amount.getD 0)).sum) ∧
    ((Transaction.get_monthly_summary uid month year tbl).2
      = ((tbl.rows.filter (fun r =>
            r.user_id == some uid && r.transaction_type == some "expense" &&
              (match r.date with
                | none => false
                | some d => d.month == month && d.year == year))).map
          (fun r => r.amount.getD 0)).sum) ∧
    ((∀ r ∈ tbl.rows, monthlyMatch uid "income" month year r = false) →
      (Transaction.get_monthly_summary uid month year tbl).1 = 0) ∧
    ((∀ r ∈ tbl.rows, monthlyMatch uid "expense" month year r = false) →
      (Transaction.get_monthly_summary uid month year tbl).2 = 0) := by
  have h1 : (Transaction.get_monthly_summary uid month year tbl).1
      = ((tbl.rows.filter (monthlyMatch uid "income" month year)).map
          (fun r => r.amount.getD 0)).sum := by
    unfold Transaction.get_monthly_summary
    exact sqlSum_eq_filter_sum _ _ _
  have h2 : (Transaction.get_monthly_summary uid month year tbl).2
      = ((tbl.rows.filter (monthlyMatch uid "expense" month year)).map
          (fun r => r.amount.getD 0)).sum := by
    unfold Transaction.get_monthly_summary
    exact sqlSum_eq_filter_sum _ _ _
  refine ⟨h1, h2, fun hn => ?_, fun hn => ?_⟩
  · rw [h1, List.filter_eq_nil_iff.mpr (fun r hr => by simp [hn r hr])]
    simp
  · rw [h2, List.filter_eq_nil_iff.mpr (fun r hr => by simp [hn r hr])]
    simp

/-- C6 witness: on the empty transactions table both components are 0. -/
theorem monthly_summary_spec_witness :
    (Transaction.get_monthly_summary 1 5 2024 ⟨[], 1⟩).1 = 0 ∧
      (Transaction.get_monthly_summary 1 5 2024 ⟨[], 1⟩).2 = 0 :=
  ⟨(monthly_summary_spec 1 5 2024 ⟨[], 1⟩).2.2.1 (by simp),
   (monthly_summary_spec 1 5 2024 ⟨[], 1⟩).2.2.2 (by simp)⟩

/-! ## C7: pending total -/

/-- C7: `get_pending_total` returns the sum of amounts over exactly the stored
accounts of the given user with the given type whose status is `'pending'`;
accounts with any other status are excluded, and the total is 0 when no
account matches. -/
theorem pending_total_spec (uid : Int) (atype : String) (tbl : AccountsTable) :
    (Account.get_pending_total uid atype tbl
      = ((tbl.rows.filter (fun r =>
            r.user_id == some uid && r.account_type == some atype &&
              r.status == some "pending")).map
          (fun r => r.amount.getD 0)).sum) ∧
    (∀ r ∈ tbl.rows, r.status ≠ some "pending" →
      pendingMatch uid atype r = false) ∧
    ((∀ r ∈ tbl.rows, pendingMatch uid atype r = false) →
      Account.get_pending_total uid atype tbl = 0) := by
  have h1 : Account.get_pending_total uid atype tbl
      = ((tbl.rows.filter (pendingMatch uid atype)).map
          (fun r => r.amount.getD 0)).sum := by
    unfold Account.get_pending_total
    exact sqlSum_eq_filter_sum _ _ _
  refine ⟨h1, fun r _ hst => ?_, fun hn => ?_⟩
  · unfold pendingMatch
    simp [hst]
  · rw [h1, List.filter_eq_nil_iff.mpr (fun r hr => by simp [hn r hr])]
    simp

/-- C7 witness: on the empty accounts table the pending total is 0. -/
theorem pending_total_spec_witness :
    Account.get_pending_total 1 "payable" ⟨[], 1⟩ = 0 :=
  (pending_total_spec 1 "payable" ⟨[], 1⟩).2.2 (by simp)

/-! ## C8: lookup misses return an absent result -/

/-- C8: when no stored row matches the lookup key, `User.get_by_id`,
`User.get_by_email`, `User.get_by_username`, and `Account.get_by_id` all
return an absent result rather than signaling an error. For the account
lookup, a row is a match only when its id equals the key and, when a truthy
owner filter is passed, its owner matches too. -/
theorem lookup_miss_spec :
    (∀ (uid : Nat) (tbl : UsersTable),
      (∀ r ∈ tbl.rows, r.id ≠ uid) → User.get_by_id uid tbl = none) ∧
    (∀ (em : String) (tbl : UsersTable),
      (∀ r ∈ tbl.rows, r.email ≠ some em) → User.get_by_email em tbl = none) ∧
    (∀ (un : String) (tbl : UsersTable),
      (∀ r ∈ tbl.rows, r.username ≠ some un) →
        User.get_by_username un tbl = none) ∧
    (∀ (aid : Nat) (owner : Option Int) (tbl : AccountsTable),
      (∀ r ∈ tbl.rows,
        r.id ≠ aid ∨ (truthyInt owner = true ∧ r.user_id ≠ owner)) →
        Account.get_by_id aid owner tbl = none) := by
  refine ⟨fun uid tbl h => ?_, fun em tbl h => ?_, fun un tbl h => ?_,
          fun aid owner tbl h => ?_⟩
  · unfold User.get_by_id
    rw [List.find?_eq_none.mpr (fun r hr => by simp [h r hr])]
    rfl
  · unfold User.get_by_email
    rw [List.find?_eq_none.mpr (fun r hr => by simp [h r hr])]
    rfl
  · unfold User.get_by_username
    rw [List.find?_eq_none.mpr (fun r hr => by simp [h r hr])]
    rfl
  · unfold Account.get_by_id
    by_cases ho : truthyInt owner = true
    · rw [if_pos ho, List.find?_eq_none.mpr ?_]
      · rfl
      · intro r hr
        rcases h r hr with hid | ⟨_, huid⟩
        · simp [hid]
        · simp [huid]
    · rw [if_neg ho, List.find?_eq_none.mpr ?_]
      · rfl
      · intro r hr
        rcases h r hr with hid | ⟨htr, _⟩
        · simp [hid]
        · exact absurd htr ho

/-- C8 witness: all four lookups miss on empty tables and on a one-row table
whose row does not match the key. -/
theorem lookup_miss_spec_witness :
    User.get_by_id 5 ⟨[], 1⟩ = none ∧
    User.get_by_email "x@y.z" ⟨[], 1⟩ = none ∧
    User.get_by_username "nobody" ⟨[], 1⟩ = none ∧
    Account.get_by_id 5 (some 1) ⟨[], 1⟩ = none :=
  ⟨lookup_miss_spec.1 5 ⟨[], 1⟩ (by simp),
   lookup_miss_spec.2.1 "x@y.z" ⟨[], 1⟩ (by simp),
   lookup_miss_spec.2.2.1 "nobody" ⟨[], 1⟩ (by simp),
   lookup_miss_spec.2.2.2 5 (some 1) ⟨[], 1⟩ (by simp)⟩

/-! ## C9: registration sets a 7-day trial window -/

/-- C9: a successful `User.create` (no UNIQUE violation, on a well-formed
table whose stored ids are below the AUTOINCREMENT counter) stores a row whose
`trial_end_date` is exactly 7 days (7 * 86400 seconds) after the creation
instant, and returns the stored user: its identifier is the newly assigned
key, its trial end is the 7-day mark, and it equals what `get_by_id` reloads. -/
theorem create_trial_window_spec (gen_hash : String → String)
    (username email password full_name : String) (phone : Option String)
    (now : Int) (tbl : UsersTable)
    (hdup : ∀ r ∈ tbl.rows, r.username ≠ some username ∧ r.email ≠ some email)
    (hwf : ∀ r ∈ tbl.rows, r.id < tbl.next_id) :
    ∃ u tbl2,
      User.create gen_hash username email password full_name phone now tbl
        = Except.ok (some u, tbl2) ∧
      u.trial_end_date = some (now + 7 * 86400) ∧
      u.id = some tbl.next_id ∧
      User.get_by_id tbl.next_id tbl2 = some u := by
  have hne : ¬ (tbl.rows.any
      (fun r => r.username == some username || r.email == some email)) = true := by
    rw [List.any_eq_true]
    push_neg
    intro r hr
    have := hdup r hr
    simp [this.1, this.2]
  have hfind : User.get_by_id tbl.next_id
      ⟨tbl.rows ++ [User.createRow gen_hash username email password full_name
          phone now tbl.next_id], tbl.next_id + 1⟩
      = some (User.createRow gen_hash username email password full_name
          phone now tbl.next_id).toUser := by
    unfold User.get_by_id
    rw [List.find?_append,
        List.find?_eq_none.mpr (fun r hr => by
          have := hwf r hr
          simp only [beq_iff_eq]
          omega)]
    simp [User.createRow]
  refine ⟨(User.createRow gen_hash username email password full_name
      phone now tbl.next_id).toUser, _, ?_, ?_, ?_, hfind⟩
  · unfold User.create
    rw [if_neg hne, hfind]
  · simp [UserRow.toUser, User.createRow, User.init]
  · simp [UserRow.toUser, User.createRow, User.init]

/-- C9 witness: creating a user on the empty table yields trial end
`1000 + 604800` and identifier 1, reloadable by `get_by_id`. -/
theorem create_trial_window_spec_witness :
    ∃ u tbl2,
      User.create id "joao" "joao@mail.com" "pw" "João" none 1000 ⟨[], 1⟩
        = Except.ok (some u, tbl2) ∧
      u.trial_end_date = some (1000 + 7 * 86400) ∧
      u.id = some 1 ∧
      User.get_by_id 1 tbl2 = some u :=
  create_trial_window_spec id "joao" "joao@mail.com" "pw" "João" none 1000
    ⟨[], 1⟩ (by simp) (by simp)

/-! ## C4: save is insert-or-update -/

/-- C4: for each of Transaction, Account, and FinancialGoal, `save` with no
identifier set appends one new row carrying the record's column values (with
`created_at` from the schema default), bumps the AUTOINCREMENT counter, and
returns the record itself with its identifier populated with the newly
assigned key; `save` with a (truthy) identifier set maps every stored row with
that identifier to a copy whose mutable columns are all set to the record's
values, leaves every other row and the counter unchanged, and returns the
record itself. -/
theorem save_insert_or_update_spec :
    (∀ (t : Transaction) (tbl : TransactionsTable) (now : Int),
      (Transaction.save { t with id := none } tbl now).1
          = { t with id := some tbl.next_id } ∧
      (Transaction.save { t with id := none } tbl now).2.next_id
          = tbl.next_id + 1 ∧
      (Transaction.save { t with id := none } tbl now).2.rows
          = tbl.rows ++ [{
              id := tbl.next_id, user_id := t.user_id,
              description := t.description, amount := some t.amount,
              transaction_type := t.transaction_type, category := t.category,
              date := t.date, created_at := some now,
              is_recurring := some (if t.is_recurring then 1 else 0),
              recurrence_type := t.recurrence_type,
              account_id := t.account_id }] ∧
      ∀ k : Nat,
        (Transaction.save { t with id := some (k+1) } tbl now).1
            = { t with id := some (k+1) } ∧
        (Transaction.save { t with id := some (k+1) } tbl now).2.next_id
            = tbl.next_id ∧
        (Transaction.save { t with id := some (k+1) } tbl now).2.rows
            = tbl.rows.map (fun r =>
                if r.id = k+1 then
                  { r with
                    description := t.description, amount := some t.amount,
                    transaction_type := t.transaction_type,
                    category := t.category, date := t.date,
                    is_recurring := some (if t.is_recurring then 1 else 0),
                    recurrence_type := t.recurrence_type,
                    account_id := t.account_id }
                else r)) ∧
    (∀ (a : Account) (tbl : AccountsTable) (now : Int),
      (Account.save { a with id := none } tbl now).1
          = { a with id := some tbl.next_id } ∧
      (Account.save { a with id := none } tbl now).2.next_id
          = tbl.next_id + 1 ∧
      (Account.save { a with id := none } tbl now).2.rows
          = tbl.rows ++ [{
              id := tbl.next_id, user_id := a.user_id,
              name := a.name, account_type := a.account_type,
              amount := some a.amount, due_date := a.due_date,
              status := some a.status, created_at := some now }] ∧
      ∀ k : Nat,
        (Account.save { a with id := some (k+1) } tbl now).1
            = { a with id := some (k+1) } ∧
        (Account.save { a with id := some (k+1) } tbl now).2.next_id
            = tbl.next_id ∧
        (Account.save { a with id := some (k+1) } tbl now).2.rows
            = tbl.rows.map (fun r =>
                if r.id = k+1 then
                  { r with
                    name := a.name, account_type := a.account_type,
                    amount := some a.amount, due_date := a.due_date,
                    status := some a.status }
                else r)) ∧
    (∀ (g : FinancialGoal) (tbl : GoalsTable) (now : Int),
      (FinancialGoal.save { g with id := none } tbl now).1
          = { g with id := some tbl.next_id } ∧
      (FinancialGoal.save { g with id := none } tbl now).2.next_id
          = tbl.next_id + 1 ∧
      (FinancialGoal.save { g with id := none } tbl now).2.rows
          = tbl.rows ++ [{
              id := tbl.next_id, user_id := g.user_id,
              title := g.title, target_amount := some g.target_amount,
              current_amount := some g.current_amount,
              target_date := g.target_date, created_at := some now,
              is_completed := some (if g.is_completed then 1 else 0) }] ∧
      ∀ k : Nat,
        (FinancialGoal.save { g with id := some (k+1) } tbl now).1
            = { g with id := some (k+1) } ∧
        (FinancialGoal.save { g with id := some (k+1) } tbl now).2.next_id
            = tbl.next_id ∧
        (FinancialGoal.save { g with id := some (k+1) } tbl now).2.rows
            = tbl.rows.map (fun r =>
                if r.id = k+1 then
                  { r with
                    title := g.title, target_amount := some g.target_amount,
                    current_amount := some g.current_amount,
                    target_date := g.target_date,
                    is_completed := some (if g.is_completed then 1 else 0) }
                else r)) := by
  refine ⟨fun t tbl now => ⟨rfl, rfl, rfl, fun k => ?_⟩,
          fun a tbl now => ⟨rfl, rfl, rfl, fun k => ?_⟩,
          fun g tbl now => ⟨rfl, rfl, rfl, fun k => ?_⟩⟩ <;>
    refine ⟨?_, ?_, ?_⟩ <;>
    simp [Transaction.save, Account.save, FinancialGoal.save, truthyNat]

/-! ## C5: save/reload round trip -/

/-- Reloading a freshly inserted account by the assigned key returns the row
materialized through the constructor coercions, with `created_at` set by the
store default. -/
theorem account_insert_reload (a : Account) (tbl : AccountsTable) (now : Int)
    (hid : a.id = none) (hwf : ∀ r ∈ tbl.rows, r.id < tbl.next_id) :
    Account.get_by_id tbl.next_id none (a.save tbl now).2
      = some { a with
          id := some tbl.next_id,
          amount := floatOrZero (some a.amount),
          status := strOr (some a.status) "pending",
          created_at := some now } := by
  unfold Account.save
  rw [hid, if_neg (by simp [truthyNat])]
  unfold Account.get_by_id
  rw [if_neg (by simp [truthyInt])]
  rw [List.find?_append,
      List.find?_eq_none.mpr (fun r hr => by
        have := hwf r hr
        simp only [beq_iff_eq]
        omega)]
  simp [AccountRow.toAccount, Account.init]

/-- Reloading an account after an UPDATE by its key returns the updated row
materialized through the constructor coercions; the columns the UPDATE does
not touch (`user_id`, `created_at`) keep their stored values. -/
theorem account_update_reload (a : Account) (tbl : AccountsTable) (now : Int)
    (k : Nat) (hid : a.id = some (k + 1)) (r0 : AccountRow)
    (hfind : tbl.rows.find? (fun r => r.id == k + 1) = some r0) :
    Account.get_by_id (k + 1) none (a.save tbl now).2
      = some { a with
          id := some (k + 1),
          user_id := r0.user_id,
          amount := floatOrZero (some a.amount),
          status := strOr (some a.status) "pending",
          created_at := r0.created_at } := by
  have hr0 : r0.id = k + 1 := by
    have := List.find?_some hfind
    simpa using this
  unfold Account.save
  rw [hid, if_pos (by simp [truthyNat])]
  unfold Account.get_by_id
  rw [if_neg (by simp [truthyInt])]
  rw [List.find?_map]
  have hpf : ((fun r : AccountRow => r.id == k + 1) ∘ (fun r =>
      if r.id = (some (k+1) : Option Nat).getD 0 then
        { r with
          name := a.name, account_type := a.account_type,
          amount := some a.amount, due_date := a.due_date,
          status := some a.status }
      else r)) = fun r : AccountRow => r.id == k + 1 := by
    funext r
    by_cases h : r.id = k + 1 <;> simp [h]
  rw [hpf, hfind]
  simp [AccountRow.toAccount, Account.init, hr0]

/-- C5 counterexample: a concrete fresh account saved into the empty store and
reloaded by its assigned key is NOT equal to the saved record: the reloaded
record carries the store-assigned `created_at`, which the saved record lacks. -/
theorem save_reload_counterexample :
    ((Account.init none (some 1) (some "Aluguel") (some "payable") (some 100)
        none none none).save ⟨[], 1⟩ 500).1.id = some 1 ∧
    Account.get_by_id 1 none
        ((Account.init none (some 1) (some "Aluguel") (some "payable")
            (some 100) none none none).save ⟨[], 1⟩ 500).2
      ≠ some ((Account.init none (some 1) (some "Aluguel") (some "payable")
          (some 100) none none none).save ⟨[], 1⟩ 500).1 := by
  refine ⟨rfl, ?_⟩
  intro h
  have := congrArg (fun x => (Option.map Account.created_at x)) h
  simp [Account.get_by_id, Account.save, Account.init, AccountRow.toAccount,
    truthyInt, truthyNat] at this

/-- C5 (amended): for every account built by the constructor and saved with no
identifier into a well-formed store, reloading by the newly assigned key
returns a record equal to the saved one on every field except `created_at`,
which carries the store default; and for every such account saved with a
truthy identifier that matches a stored row, reloading returns a record equal
to the saved one on every field except `user_id` and `created_at`, which keep
the stored row's values (the UPDATE does not write them). -/
theorem save_reload_spec
    (uid : Option Int) (nm ty : Option String) (amt : Option Rat)
    (due st : Option String) (cat : Option Int)
    (tbl : AccountsTable) (now : Int)
    (hwf : ∀ r ∈ tbl.rows, r.id < tbl.next_id) :
    (((Account.init none uid nm ty amt due st cat).save tbl now).1.id
        = some tbl.next_id ∧
      Account.get_by_id tbl.next_id none
          ((Account.init none uid nm ty amt due st cat).save tbl now).2
        = some { ((Account.init none uid nm ty amt due st cat).save tbl now).1
            with created_at := some now }) ∧
    (∀ (k : Nat) (r0 : AccountRow),
      tbl.rows.find? (fun r => r.id == k + 1) = some r0 →
      Account.get_by_id (k + 1) none
          ((Account.init (some (k + 1)) uid nm ty amt due st cat).save tbl now).2
        = some { Account.init (some (k + 1)) uid nm ty amt due st cat with
            user_id := r0.user_id, created_at := r0.created_at }) := by
  have hamt : floatOrZero (some (floatOrZero amt)) = floatOrZero amt :=
    floatOrZero_some _
  have hst : strOr (some (strOr st "pending")) "pending" = strOr st "pending" :=
    strOr_some_strOr st "pending" (by decide)
  refine ⟨⟨rfl, ?_⟩, fun k r0 hfind => ?_⟩
  · rw [account_insert_reload (Account.init none uid nm ty amt due st cat)
        tbl now rfl hwf]
    simp [Account.init, hamt, hst, Account.save, truthyNat]
  · rw [account_update_reload (Account.init (some (k + 1)) uid nm ty amt due st cat)
        tbl now k rfl r0 hfind]
    simp [Account.init, hamt, hst]

/-- C5 witness: inserting a concrete account into the empty store and then a
concrete update against the resulting one-row store both reload as the
theorem states. -/
theorem save_reload_spec_witness :
    (((Account.init none (some 1) (some "Luz") (some "payable") (some 80)
        none none none).save ⟨[], 1⟩ 500).1.id = some 1 ∧
      Account.get_by_id 1 none
          ((Account.init none (some 1) (some "Luz") (some "payable") (some 80)
              none none none).save ⟨[], 1⟩ 500).2
        = some { ((Account.init none (some 1) (some "Luz") (some "payable")
            (some 80) none none none).save ⟨[], 1⟩ 500).1
            with created_at := some 500 }) ∧
    Account.get_by_id 1 none
        ((Account.init (some 1) (some 2) (some "Luz") (some "payable") (some 90)
            none (some "paid") none).save
          ⟨[{ id := 1, user_id := some 1, name := some "Luz",
              account_type := some "payable", amount := some 80,
              due_date := none, status := some "pending",
              created_at := some 500 }], 2⟩ 900).2
      = some { Account.init (some 1) (some 2) (some "Luz") (some "payable")
          (some 90) none (some "paid") none with
          user_id := some 1, created_at := some 500 } :=
  ⟨(save_reload_spec (some 1) (some "Luz") (some "payable") (some 80)
      none none none ⟨[], 1⟩ 500 (by simp)).1,
   (save_reload_spec (some 2) (some "Luz") (some "payable") (some 90)
      none (some "paid") none
      ⟨[{ id := 1, user_id := some 1, name := some "Luz",
          account_type := some "payable", amount := some 80,
          due_date := none, status := some "pending",
          created_at := some 500 }], 2⟩ 900 (by decide)).2 0
      { id := 1, user_id := some 1, name := some "Luz",
        account_type := some "payable", amount := some 80,
        due_date := none, status := some "pending",
        created_at := some 500 } (by decide)⟩

end FinSys
